import Mathlib

/-!
Verification of the Evacom Discord authorization bot (`bot.py`).

The development shallowly embeds the core of the bot:

* the code-derivation functions `_hmac_u32`, `make_access_key`,
  `make_response_code`, `format_access`, `extract_6digits` — including a
  concrete executable model of HMAC-SHA256 over byte lists (`Nat` valued,
  each byte `< 256`, words reduced mod `2^32`);
* the per-user session state machine implemented by `handle_evacom_link`
  and `handle_evacom_verify` over the `pending` dictionary.

Timestamps (Python `time.time()` floats) are modelled as rationals; Python
integers are modelled as `Int`; `int()` applied to a float is truncation
toward zero (`int_trunc`). The `pending` dict is keyed by user id and every
handler reads and writes only the invoking user's entry, so the handlers are
modelled as functions of that single user's `Option Session` entry. External
platform calls (the guild/channel guard, role lookup, membership test, the
`add_roles` grant — which can raise, in which case the handler aborts before
touching `pending`) are modelled by boolean fields of an environment record,
and `secrets.randbelow`-drawn nonces by an environment-supplied string.
-/

namespace Evacom

/-! ## Bytes and words -/

/-- Reduce a word mod `2^32` (Python's `int.from_bytes` result is already
in range; we reduce after every 32-bit addition, as SHA-256 prescribes). -/
def w32 (x : Nat) : Nat := x % 4294967296

/-- Rotate the 32-bit word `x` right by `n` positions. -/
def rotr (n x : Nat) : Nat := w32 ((x >>> n) ||| (x <<< (32 - n)))

/-- Bitwise complement on 32 bits. -/
def bnot32 (x : Nat) : Nat := x ^^^ 4294967295

/-- Big-endian bytes of `n`, `len` bytes wide. -/
def beBytes (len n : Nat) : List Nat :=
  (List.range len).map (fun i => (n >>> (8 * (len - 1 - i))) % 256)

/-- The unsigned big-endian integer of a 4-byte list:
`int.from_bytes(digest[:4], "big", signed=False)`. -/
def beU32 (bs : List Nat) : Nat :=
  ((bs.getD 0 0 * 256 + bs.getD 1 0) * 256 + bs.getD 2 0) * 256 + bs.getD 3 0

/-! ## SHA-256 (FIPS 180-4), the hash inside `hashlib.sha256` -/

/-- The 64 SHA-256 round constants. -/
def shaK : List Nat :=
  [1116352408, 1899447441, 3049323471, 3921009573, 961987163,
   1508970993, 2453635748, 2870763221, 3624381080, 310598401,
   607225278, 1426881987, 1925078388, 2162078206, 2614888103,
   3248222580, 3835390401, 4022224774, 264347078, 604807628,
   770255983, 1249150122, 1555081692, 1996064986, 2554220882,
   2821834349, 2952996808, 3210313671, 3336571891, 3584528711,
   113926993, 338241895, 666307205, 773529912, 1294757372,
   1396182291, 1695183700, 1986661051, 2177026350, 2456956037,
   2730485921, 2820302411, 3259730800, 3345764771, 3516065817,
   3600352804, 4094571909, 275423344, 430227734, 506948616,
   659060556, 883997877, 958139571, 1322822218, 1537002063,
   1747873779, 1955562222, 2024104815, 2227730452, 2361852424,
   2428436474, 2756734187, 3204031479, 3329325298]

/-- The initial hash value. -/
def shaH0 : List Nat :=
  [1779033703, 3144134277, 1013904242, 2773480762,
   1359893119, 2600822924, 528734635, 1541459225]

def bigSigma0 (x : Nat) : Nat := rotr 2 x ^^^ rotr 13 x ^^^ rotr 22 x
def bigSigma1 (x : Nat) : Nat := rotr 6 x ^^^ rotr 11 x ^^^ rotr 25 x
def smallSigma0 (x : Nat) : Nat := rotr 7 x ^^^ rotr 18 x ^^^ (x >>> 3)
def smallSigma1 (x : Nat) : Nat := rotr 17 x ^^^ rotr 19 x ^^^ (x >>> 10)
def chComb (e f g : Nat) : Nat := (e &&& f) ^^^ (bnot32 e &&& g)
def majComb (a b c : Nat) : Nat := (a &&& b) ^^^ (a &&& c) ^^^ (b &&& c)

/-- Merkle–Damgård padding: `0x80`, zeros to 56 mod 64, then the 64-bit
big-endian bit length. -/
def padMessage (msg : List Nat) : List Nat :=
  msg ++ [0x80] ++ List.replicate ((119 - msg.length % 64) % 64) 0
      ++ beBytes 8 (8 * msg.length)

/-- Big-endian 32-bit words of a byte list. -/
def bytesToWords : List Nat → List Nat
  | b0 :: b1 :: b2 :: b3 :: rest =>
      (((b0 * 256 + b1) * 256 + b2) * 256 + b3) :: bytesToWords rest
  | _ => []

/-- Extend the 16 block words by `n` schedule words; `ws` is the sliding
window of the previous 16 words, oldest first. -/
def extendWords : Nat → List Nat → List Nat
  | 0, _ => []
  | n + 1, ws =>
    let wt := w32 (smallSigma1 (ws.getD 14 0) + ws.getD 9 0
                   + smallSigma0 (ws.getD 1 0) + ws.getD 0 0)
    wt :: extendWords n (ws.tail ++ [wt])

/-- The eight working variables of the compression loop. -/
structure Hash8 where
  a : Nat
  b : Nat
  c : Nat
  d : Nat
  e : Nat
  f : Nat
  g : Nat
  h : Nat
  deriving Repr, DecidableEq

/-- One round of the compression function, on a round constant paired with a
schedule word. -/
def compressStep (st : Hash8) (kw : Nat × Nat) : Hash8 :=
  let t1 := w32 (st.h + bigSigma1 st.e + chComb st.e st.f st.g + kw.1 + kw.2)
  let t2 := w32 (bigSigma0 st.a + majComb st.a st.b st.c)
  ⟨w32 (t1 + t2), st.a, st.b, st.c, w32 (st.d + t1), st.e, st.f, st.g⟩

/-- Compress one 64-byte block into the running hash (8 words). -/
def compressBlock (hs : List Nat) (block : List Nat) : List Nat :=
  let ws16 := bytesToWords block
  let ws := ws16 ++ extendWords 48 ws16
  let init : Hash8 :=
    ⟨hs.getD 0 0, hs.getD 1 0, hs.getD 2 0, hs.getD 3 0,
     hs.getD 4 0, hs.getD 5 0, hs.getD 6 0, hs.getD 7 0⟩
  let fin := (shaK.zip ws).foldl compressStep init
  [w32 (hs.getD 0 0 + fin.a), w32 (hs.getD 1 0 + fin.b),
   w32 (hs.getD 2 0 + fin.c), w32 (hs.getD 3 0 + fin.d),
   w32 (hs.getD 4 0 + fin.e), w32 (hs.getD 5 0 + fin.f),
   w32 (hs.getD 6 0 + fin.g), w32 (hs.getD 7 0 + fin.h)]

/-- Split a byte list into 64-byte chunks (structural recursion on a fuel
bound so the definition reduces in the kernel). -/
def chunks64Go : Nat → List Nat → List (List Nat)
  | 0, _ => []
  | fuel + 1, l => if l = [] then [] else l.take 64 :: chunks64Go fuel (l.drop 64)

/-- Split a byte list into 64-byte chunks. -/
def chunks64 (l : List Nat) : List (List Nat) := chunks64Go l.length l

/-- SHA-256 of a byte list, as a 32-byte list. -/
def sha256 (msg : List Nat) : List Nat :=
  (((chunks64 (padMessage msg)).foldl compressBlock shaH0).map (beBytes 4)).flatten

/-! ## HMAC (RFC 2104), the construction inside `hmac.new(..., hashlib.sha256)` -/

/-- HMAC-SHA256 of `msg` under `key` (SHA-256 block size 64 bytes). -/
def hmacSha256 (key msg : List Nat) : List Nat :=
  let k0 := if 64 < key.length then sha256 key else key
  let kb := k0 ++ List.replicate (64 - k0.length) 0
  sha256 ((kb.map (fun b => b ^^^ 0x5c)) ++ sha256 ((kb.map (fun b => b ^^^ 0x36)) ++ msg))

/-! ## Strings as UTF-8 bytes (`str.encode("utf-8")`) -/

/-- UTF-8 encoding of one code point. -/
def utf8Char (n : Nat) : List Nat :=
  if n < 128 then [n]
  else if n < 2048 then [192 + n / 64, 128 + n % 64]
  else if n < 65536 then [224 + n / 4096, 128 + n / 64 % 64, 128 + n % 64]
  else [240 + n / 262144, 128 + n / 4096 % 64, 128 + n / 64 % 64, 128 + n % 64]

/-- UTF-8 bytes of a string. -/
def strBytes (s : String) : List Nat := (s.data.map (fun c => utf8Char c.toNat)).flatten

/-! ## Code derivation (`_hmac_u32`, `make_access_key`, `make_response_code`) -/

/-- Source `_hmac_u32(msg)`: the first 4 bytes of
`hmac.new(SECRET_KEY.encode(), msg.encode(), hashlib.sha256).digest()`
read as an unsigned big-endian integer. The process-wide `SECRET_KEY` is an
explicit parameter here. -/
def hmac_u32 (secret msg : String) : Nat :=
  beU32 ((hmacSha256 (strBytes secret) (strBytes msg)).take 4)

/-- Character `'0'..'9'` for `d < 10`. -/
def digitChar (d : Nat) : Char := Char.ofNat (48 + d)

/-- Decimal digits, most significant first, structurally recursive on a fuel
bound so the definition reduces in the kernel. -/
def natDigitsGo : Nat → Nat → List Nat
  | 0, _ => []
  | fuel + 1, n => if n < 10 then [n] else natDigitsGo fuel (n / 10) ++ [n % 10]

/-- Decimal digits of `n`, most significant first. -/
def natDigits (n : Nat) : List Nat := natDigitsGo (n + 1) n

/-- Decimal rendering of a natural number. -/
def decRepr (n : Nat) : String := String.mk ((natDigits n).map digitChar)

/-- Left-pad with `'0'` to width `w` — Python's `f"{n:0wd}"`. -/
def padNum (w n : Nat) : String :=
  let s := decRepr n
  String.mk (List.replicate (w - s.length) '0') ++ s

/-- Source `make_access_key(nonce6)`: nonce plus two check digits,
`f"{nonce6}{sig2:02d}"` with `sig2 = _hmac_u32(f"CHAL|{nonce6}") % 100`. -/
def make_access_key (secret nonce6 : String) : String :=
  let sig2 := hmac_u32 secret ("CHAL|" ++ nonce6) % 100
  nonce6 ++ padNum 2 sig2

/-- Source `make_response_code(nonce6)`: `f"{r6:06d}"` with
`r6 = _hmac_u32(f"RESP|{nonce6}") % 1_000_000`. -/
def make_response_code (secret nonce6 : String) : String :=
  padNum 6 (hmac_u32 secret ("RESP|" ++ nonce6) % 1000000)

/-- Source `format_access(access8)`: `f"{access8[:4]} {access8[4:]}"`. -/
def format_access (access8 : String) : String :=
  String.mk (access8.data.take 4) ++ " " ++ String.mk (access8.data.drop 4)

/-- Source `extract_6digits(text)`: drop every non-digit (`re.sub(r"\D", "", text)`,
here over the ASCII digits all protocol codes consist of) and keep the result
exactly when it has 6 digits, else return `""`. -/
def extract_6digits (text : String) : String :=
  let digits := String.mk (text.data.filter Char.isDigit)
  if digits.length = 6 then digits else ""

end Evacom

namespace Evacom

/-! ## Time and configuration

`time.time()` values are rationals; Python `int()` on a float truncates
toward zero. -/

/-- Python's `int()` on a real value: truncation toward zero. -/
def int_trunc (q : Rat) : Int := if 0 ≤ q then q.floor else q.ceil

/-- The environment-sourced configuration (`TTL_SECONDS`, `COOLDOWN_SECONDS`,
`MAX_ATTEMPTS`), Python ints. -/
structure Config where
  TTL_SECONDS : Int
  COOLDOWN_SECONDS : Int
  MAX_ATTEMPTS : Int
  deriving Repr, DecidableEq

/-- One `pending[user_id]` entry:
`{"nonce": ..., "created": ..., "attempts": ..., "cooldown": ...}`. -/
structure Session where
  nonce : String
  created : Rat
  attempts : Int
  cooldown : Rat
  deriving Repr, DecidableEq

/-- Source `is_expired(created)`: `(time.time() - created) > TTL_SECONDS`, with the
current time an explicit parameter. -/
def is_expired (cfg : Config) (now created : Rat) : Bool :=
  (now - created) > (cfg.TTL_SECONDS : Rat)

/-- Source `_time_left(created)`: `max(int(TTL_SECONDS - (time.time() - created)), 0)`. -/
def time_left (cfg : Config) (now created : Rat) : Int :=
  max (int_trunc ((cfg.TTL_SECONDS : Rat) - (now - created))) 0

/-! ## The LINK handler (`handle_evacom_link`) -/

/-- The external-platform facts `handle_evacom_link` consults, plus the
fresh nonce `f"{secrets.randbelow(1_000_000):06d}"` would draw if the
handler reaches session creation. -/
structure LinkEnv where
  /-- Result of `guard(interaction)`: right guild and link channel. -/
  guardOk : Bool
  /-- Whether `guild.get_role(AUTHORIZED_ROLE_ID) is not None`. -/
  roleFound : Bool
  /-- the invoking member already holds the authorized role. -/
  alreadyAuthorized : Bool
  /-- the 6-digit string a fresh `secrets.randbelow` draw would produce. -/
  freshNonce : String
  deriving Repr, DecidableEq

/-- The reply `handle_evacom_link` sends, with the data interpolated into
the message text. -/
inductive LinkReply where
  /-- guard failed: wrong guild or channel. -/
  | guardDenied : LinkReply
  /-- Message "Bot misconfigured: Authorized role not found." -/
  | misconfigured : LinkReply
  /-- Message "Evacom status: already authorized." -/
  | alreadyAuthorized : LinkReply
  /-- Message "Please wait ...s and try again." with the reported wait. -/
  | throttled (wait : Int) : LinkReply
  /-- resumed session: "ACCESS KEY: {format_access access8} ... Key expires in {left}s." -/
  | accessResumed (access8 : String) (left : Int) : LinkReply
  /-- fresh session: "ACCESS KEY: {format_access access8} ... Expires in TTL_SECONDS s." -/
  | accessNew (access8 : String) : LinkReply
  deriving Repr, DecidableEq

/-- Source `handle_evacom_link`, as a function of the invoking user's `pending`
entry. Returns the updated entry and the reply. -/
def handle_evacom_link (cfg : Config) (secret : String) (env : LinkEnv)
    (now : Rat) (st? : Option Session) : Option Session × LinkReply :=
  if ¬ env.guardOk then (st?, .guardDenied)
  else if ¬ env.roleFound then (st?, .misconfigured)
  else if env.alreadyAuthorized then (st?, .alreadyAuthorized)
  else
    let fresh : Option Session × LinkReply :=
      (some ⟨env.freshNonce, now, 0, now + (cfg.COOLDOWN_SECONDS : Rat)⟩,
       .accessNew (make_access_key secret env.freshNonce))
    match st? with
    | some st =>
      if st.cooldown > now then
        (some st, .throttled (int_trunc (st.cooldown - now)))
      else if ¬ is_expired cfg now st.created then
        (some { st with cooldown := now + (cfg.COOLDOWN_SECONDS : Rat) },
         .accessResumed (make_access_key secret st.nonce) (time_left cfg now st.created))
      else fresh
    | none => fresh

/-! ## The VERIFY handler (`handle_evacom_verify`) -/

/-- The external-platform facts `handle_evacom_verify` consults. -/
structure VerifyEnv where
  /-- Result of `guard(interaction)`. -/
  guardOk : Bool
  /-- Whether `guild.get_role(AUTHORIZED_ROLE_ID) is not None`. -/
  roleFound : Bool
  /-- the member fetch and `member.add_roles(role)` grant call succeed;
  when it raises instead, the handler aborts before `pending.pop`. -/
  grantOk : Bool
  deriving Repr, DecidableEq

/-- The reply `handle_evacom_verify` sends. -/
inductive VerifyReply where
  /-- guard failed: wrong guild or channel. -/
  | guardDenied : VerifyReply
  /-- Message "No active session. Use /EVACOM LINK first." -/
  | noSession : VerifyReply
  /-- Message "Session expired. Use /EVACOM LINK to get a new ACCESS KEY." -/
  | sessionExpired : VerifyReply
  /-- Message "Too many attempts. Use /EVACOM LINK to start again." -/
  | tooManyAttempts : VerifyReply
  /-- Message "Invalid format. Expected like B-123456." -/
  | invalidFormat : VerifyReply
  /-- Message "Wrong Evacom ID. ... Attempts left: ..." with the remaining count. -/
  | wrongCode (left : Int) : VerifyReply
  /-- Message "Bot misconfigured: Authorized role not found." -/
  | misconfigured : VerifyReply
  /-- the grant call raised; the platform layer surfaces
  "Internal error. Please try again." and `pending` is untouched. -/
  | grantFailed : VerifyReply
  /-- Message "Your Evacom successfully authorized. ..." -/
  | authorized : VerifyReply
  deriving Repr, DecidableEq

/-- Source `handle_evacom_verify`, as a function of the invoking user's `pending`
entry. Returns the updated entry and the reply. -/
def handle_evacom_verify (cfg : Config) (secret : String) (env : VerifyEnv)
    (now : Rat) (st? : Option Session) (code : String) :
    Option Session × VerifyReply :=
  if ¬ env.guardOk then (st?, .guardDenied)
  else
    match st? with
    | none => (none, .noSession)
    | some st =>
      if is_expired cfg now st.created then (none, .sessionExpired)
      else if st.attempts ≥ cfg.MAX_ATTEMPTS then (none, .tooManyAttempts)
      else
        let digits := extract_6digits code
        if digits = "" then
          (some { st with attempts := st.attempts + 1 }, .invalidFormat)
        else if digits ≠ make_response_code secret st.nonce then
          (some { st with attempts := st.attempts + 1 },
           .wrongCode (max (cfg.MAX_ATTEMPTS - (st.attempts + 1)) 0))
        else if ¬ env.roleFound then (some st, .misconfigured)
        else if ¬ env.grantOk then (some st, .grantFailed)
        else (none, .authorized)

end Evacom

namespace Evacom

/-! ## Decimal-rendering lemmas -/

theorem natDigitsGo_mem_lt (fuel : Nat) : ∀ n d : Nat, d ∈ natDigitsGo fuel n → d < 10 := by
  induction fuel with
  | zero => intro n d h; simp [natDigitsGo] at h
  | succ fuel ih =>
    intro n d h
    by_cases hn : n < 10
    · simp [natDigitsGo, hn] at h; omega
    · simp only [natDigitsGo, if_neg hn, List.mem_append, List.mem_singleton] at h
      rcases h with h | h
      · exact ih _ _ h
      · subst h; exact Nat.mod_lt _ (by omega)

theorem natDigitsGo_length (fuel : Nat) :
    ∀ n w : Nat, n < fuel → 1 ≤ w → n < 10 ^ w → (natDigitsGo fuel n).length ≤ w := by
  induction fuel with
  | zero => intro n w h; omega
  | succ fuel ih =>
    intro n w hfuel hw hn
    by_cases h10 : n < 10
    · simp [natDigitsGo, h10]; omega
    · have hw2 : 2 ≤ w := by
        by_contra hlt
        have hw1 : w = 1 := by omega
        subst hw1
        rw [pow_one] at hn
        omega
      obtain ⟨w', rfl⟩ : ∃ w', w = w' + 1 := ⟨w - 1, by omega⟩
      have hdivfuel : n / 10 < fuel := by
        have hself : n / 10 < n := Nat.div_lt_self (by omega) (by omega)
        omega
      have hdivpow : n / 10 < 10 ^ w' := by
        rw [Nat.div_lt_iff_lt_mul (by omega)]
        calc n < 10 ^ (w' + 1) := hn
          _ = 10 ^ w' * 10 := by rw [Nat.pow_succ]
      have := ih (n / 10) w' hdivfuel (by omega) hdivpow
      simp only [natDigitsGo, if_neg h10, List.length_append, List.length_singleton]
      omega

theorem natDigits_length {n w : Nat} (hw : 1 ≤ w) (hn : n < 10 ^ w) :
    (natDigits n).length ≤ w :=
  natDigitsGo_length (n + 1) n w (Nat.lt_succ_self n) hw hn

theorem digitChar_isDigit {d : Nat} (h : d < 10) : (digitChar d).isDigit = true := by
  interval_cases d
  all_goals decide

/-- Predicate: every character of the string is an ASCII digit. -/
def isDigitStr (s : String) : Bool := s.data.all Char.isDigit

theorem decRepr_isDigitStr (n : Nat) : isDigitStr (decRepr n) = true := by
  simp only [isDigitStr, decRepr, List.all_eq_true, List.mem_map]
  rintro c ⟨d, hd, rfl⟩
  exact digitChar_isDigit (natDigitsGo_mem_lt _ _ _ hd)

theorem padNum_length {w n : Nat} (hw : 1 ≤ w) (hn : n < 10 ^ w) :
    (padNum w n).length = w := by
  have hlen : (decRepr n).length = (natDigits n).length := by
    simp [decRepr, String.length]
  have := natDigits_length hw hn
  simp only [padNum, String.length_append]
  simp only [String.length, String.mk, List.length_replicate]
  simp only [String.length, decRepr, String.mk, List.length_map] at hlen ⊢
  omega

theorem padNum_isDigitStr (w n : Nat) : isDigitStr (padNum w n) = true := by
  have h := decRepr_isDigitStr n
  have hdata : (padNum w n).data
      = List.replicate (w - (decRepr n).length) '0' ++ (decRepr n).data := rfl
  simp only [isDigitStr, hdata, List.all_append, Bool.and_eq_true]
  refine ⟨?_, h⟩
  simp only [List.all_eq_true, List.mem_replicate]
  rintro c ⟨-, rfl⟩
  decide

theorem make_response_code_length (secret nonce : String) :
    (make_response_code secret nonce).length = 6 :=
  padNum_length (by omega) (Nat.mod_lt _ (by omega))

theorem make_response_code_ne_empty (secret nonce : String) :
    make_response_code secret nonce ≠ "" := by
  intro h
  have := make_response_code_length secret nonce
  rw [h] at this
  simp [String.length] at this

end Evacom

namespace Evacom

/-- C1: for every 6-digit nonce and any secret, the access key is the nonce
concatenated with (the first 4 bytes of HMAC-SHA256(secret, "CHAL|" + nonce)
read big-endian, mod 100, zero-padded to 2 digits), and the response code is
(the first 4 bytes of HMAC-SHA256(secret, "RESP|" + nonce) read big-endian,
mod 1,000,000, zero-padded to 6 digits); the access key is an 8-digit string
and the response code a 6-digit string. Both are pure functions of
`(secret, nonce)`, so determinism holds by construction. -/
theorem C1_code_derivation (secret nonce : String)
    (h6 : nonce.length = 6 ∧ isDigitStr nonce = true) :
    make_access_key secret nonce
      = nonce ++ padNum 2
          (beU32 ((hmacSha256 (strBytes secret) (strBytes ("CHAL|" ++ nonce))).take 4) % 100)
    ∧ make_response_code secret nonce
      = padNum 6
          (beU32 ((hmacSha256 (strBytes secret) (strBytes ("RESP|" ++ nonce))).take 4) % 1000000)
    ∧ (make_access_key secret nonce).length = 8
    ∧ isDigitStr (make_access_key secret nonce) = true
    ∧ (make_response_code secret nonce).length = 6
    ∧ isDigitStr (make_response_code secret nonce) = true := by
  refine ⟨rfl, rfl, ?_, ?_, make_response_code_length secret nonce, padNum_isDigitStr 6 _⟩
  · have h2 : (padNum 2 (hmac_u32 secret ("CHAL|" ++ nonce) % 100)).length = 2 :=
      padNum_length (by omega) (Nat.mod_lt _ (by omega))
    simp only [make_access_key, String.length_append, h6.1, h2]
  · have hp := padNum_isDigitStr 2 (hmac_u32 secret ("CHAL|" ++ nonce) % 100)
    have hn := h6.2
    simp only [make_access_key, isDigitStr, String.data_append, List.all_append,
      Bool.and_eq_true] at hp hn ⊢
    exact ⟨hn, hp⟩

/-- Witness for C1 at `secret = "k"`, `nonce = "000123"`. -/
theorem C1_code_derivation_witness :
    (("000123" : String).length = 6 ∧ isDigitStr "000123" = true)
    ∧ (make_access_key "k" "000123").length = 8
    ∧ (make_response_code "k" "000123").length = 6 :=
  ⟨by decide, (C1_code_derivation "k" "000123" (by decide)).2.2.1,
    (C1_code_derivation "k" "000123" (by decide)).2.2.2.2.1⟩

/-- C3: the 6-digit extraction drops every non-digit character and returns
the remaining digits exactly when there are exactly 6 of them, otherwise the
empty string; with the three concrete examples from the spec. -/
theorem C3_extract_6digits :
    (∀ text : String,
       extract_6digits text
         = if (text.data.filter Char.isDigit).length = 6
           then String.mk (text.data.filter Char.isDigit) else "")
    ∧ extract_6digits "B-123456" = "123456"
    ∧ extract_6digits "12-34" = ""
    ∧ extract_6digits "1 2 3 4 5 6" = "123456" := by
  refine ⟨?_, by decide, by decide, by decide⟩
  intro text
  rfl

end Evacom

namespace Evacom

/-! ## Bridging lemmas for truncation and floor -/

theorem rat_floor_eq_intFloor (q : Rat) : q.floor = ⌊q⌋ := by
  rw [Rat.floor_def', Rat.floor_def]

theorem int_trunc_eq_floor {q : Rat} (h : 0 ≤ q) : int_trunc q = ⌊q⌋ := by
  rw [int_trunc, if_pos h, rat_floor_eq_intFloor]

/-- C2: on a live, non-exhausted session, a VERIFY whose input reduces to
exactly the response code derived from the session nonce succeeds and removes
the session; any subsequent VERIFY for that user reports "no active session". -/
theorem C2_correct_verify_once (cfg : Config) (secret : String) (env env2 : VerifyEnv)
    (now now2 : Rat) (st : Session) (code code2 : String)
    (hg : env.guardOk = true) (hr : env.roleFound = true) (hgr : env.grantOk = true)
    (hg2 : env2.guardOk = true)
    (hlive : is_expired cfg now st.created = false)
    (hatt : st.attempts < cfg.MAX_ATTEMPTS)
    (hcode : extract_6digits code = make_response_code secret st.nonce) :
    handle_evacom_verify cfg secret env now (some st) code = (none, .authorized)
    ∧ handle_evacom_verify cfg secret env2 now2
        (handle_evacom_verify cfg secret env now (some st) code).1 code2
      = (none, .noSession) := by
  have hne := make_response_code_ne_empty secret st.nonce
  have hnot : ¬ (st.attempts ≥ cfg.MAX_ATTEMPTS) := by omega
  have h1 : handle_evacom_verify cfg secret env now (some st) code = (none, .authorized) := by
    simp [handle_evacom_verify, hg, hr, hgr, hlive, hnot, hcode, hne]
  refine ⟨h1, ?_⟩
  rw [h1]
  simp [handle_evacom_verify, hg2]

set_option maxRecDepth 40000 in
/-- Witness for C2: secret "k", nonce "000123", response code "310909". -/
theorem C2_correct_verify_once_witness :
    extract_6digits "B-310909" = make_response_code "k" "000123"
    ∧ (handle_evacom_verify ⟨300, 30, 3⟩ "k" ⟨true, true, true⟩ 10
          (some ⟨"000123", 0, 0, 30⟩) "B-310909" = (none, .authorized)
      ∧ handle_evacom_verify ⟨300, 30, 3⟩ "k" ⟨true, true, true⟩ 20
          (handle_evacom_verify ⟨300, 30, 3⟩ "k" ⟨true, true, true⟩ 10
            (some ⟨"000123", 0, 0, 30⟩) "B-310909").1 "B-310909"
        = (none, .noSession)) :=
  ⟨by with_unfolding_all decide,
   C2_correct_verify_once ⟨300, 30, 3⟩ "k" ⟨true, true, true⟩ ⟨true, true, true⟩ 10 20
     ⟨"000123", 0, 0, 30⟩ "B-310909" "B-310909" rfl rfl rfl rfl
     (by with_unfolding_all decide) (by decide) (by with_unfolding_all decide)⟩

set_option maxRecDepth 40000 in
/-- C4 counterexample: with MAX_ATTEMPTS = 3 and a session at 2 failed
attempts, a third failed VERIFY brings attempts to 3 = MAX_ATTEMPTS but the
session is NOT removed from the store (removal is deferred to the next
VERIFY), refuting "as soon as attempts reaches MAX_ATTEMPTS the session is
removed". -/
theorem C4_counterexample :
    handle_evacom_verify ⟨300, 30, 3⟩ "k" ⟨true, true, true⟩ 10
        (some ⟨"000123", 0, 2, 30⟩) "12-34"
      = (some ⟨"000123", 0, 3, 30⟩, .invalidFormat)
    ∧ (⟨300, 30, 3⟩ : Config).MAX_ATTEMPTS = 3
    ∧ some (⟨"000123", 0, 3, 30⟩ : Session) ≠ none := by
  refine ⟨by with_unfolding_all decide, rfl, by simp⟩

/-- C4 amended: a failed VERIFY on a live, non-exhausted session increments
attempts by exactly 1 and never pushes it past MAX_ATTEMPTS; a session whose
attempts have reached MAX_ATTEMPTS is removed at the start of its next VERIFY
regardless of remaining TTL (not at the instant the cap is reached). -/
theorem C4_attempt_cap (cfg : Config) (secret : String) (env env2 : VerifyEnv)
    (now now2 : Rat) (st st2 : Session) (code code2 : String)
    (hg : env.guardOk = true)
    (hlive : is_expired cfg now st.created = false)
    (hatt : st.attempts < cfg.MAX_ATTEMPTS)
    (hfail : extract_6digits code = "" ∨
             extract_6digits code ≠ make_response_code secret st.nonce)
    (hg2 : env2.guardOk = true)
    (hcap : st2.attempts ≥ cfg.MAX_ATTEMPTS) :
    (∃ st', (handle_evacom_verify cfg secret env now (some st) code).1 = some st'
        ∧ st'.attempts = st.attempts + 1 ∧ st'.attempts ≤ cfg.MAX_ATTEMPTS)
    ∧ (handle_evacom_verify cfg secret env2 now2 (some st2) code2).1 = none := by
  have hnot : ¬ (st.attempts ≥ cfg.MAX_ATTEMPTS) := by omega
  constructor
  · by_cases hd : extract_6digits code = ""
    · refine ⟨{ st with attempts := st.attempts + 1 }, ?_, rfl, ?_⟩
      · simp [handle_evacom_verify, hg, hlive, hnot, hd]
      · show st.attempts + 1 ≤ cfg.MAX_ATTEMPTS
        omega
    · have hne : extract_6digits code ≠ make_response_code secret st.nonce := by
        rcases hfail with h | h
        · exact absurd h hd
        · exact h
      refine ⟨{ st with attempts := st.attempts + 1 }, ?_, rfl, ?_⟩
      · simp [handle_evacom_verify, hg, hlive, hnot, hd, hne]
      · show st.attempts + 1 ≤ cfg.MAX_ATTEMPTS
        omega
  · cases hexp : is_expired cfg now2 st2.created with
    | true => simp [handle_evacom_verify, hg2, hexp]
    | false => simp [handle_evacom_verify, hg2, hexp, hcap]

set_option maxRecDepth 40000 in
/-- Witness for C4's amended statement at concrete inputs. -/
theorem C4_attempt_cap_witness :
    extract_6digits "12-34" = ""
    ∧ ((∃ st', (handle_evacom_verify ⟨300, 30, 3⟩ "k" ⟨true, true, true⟩ 10
            (some ⟨"000123", 0, 2, 30⟩) "12-34").1 = some st'
          ∧ st'.attempts = 2 + 1 ∧ st'.attempts ≤ 3)
      ∧ (handle_evacom_verify ⟨300, 30, 3⟩ "k" ⟨true, true, true⟩ 10
            (some ⟨"000123", 0, 3, 30⟩) "12-34").1 = none) :=
  ⟨by decide,
   C4_attempt_cap ⟨300, 30, 3⟩ "k" ⟨true, true, true⟩ ⟨true, true, true⟩ 10 10
     ⟨"000123", 0, 2, 30⟩ ⟨"000123", 0, 3, 30⟩ "12-34" "12-34" rfl
     (by with_unfolding_all decide) (by decide) (Or.inl (by decide)) rfl (by decide)⟩

/-- C5: when the submitted code matches but the capability grant raises, the
handler aborts before `pending.pop`: the session is preserved exactly as it
was (attempts not incremented) and the failure surfaces as a platform-level
error, so the user can retry VERIFY without penalty. -/
theorem C5_grant_failure_preserves_session (cfg : Config) (secret : String) (env : VerifyEnv)
    (now : Rat) (st : Session) (code : String)
    (hg : env.guardOk = true) (hr : env.roleFound = true) (hgr : env.grantOk = false)
    (hlive : is_expired cfg now st.created = false)
    (hatt : st.attempts < cfg.MAX_ATTEMPTS)
    (hcode : extract_6digits code = make_response_code secret st.nonce) :
    handle_evacom_verify cfg secret env now (some st) code = (some st, .grantFailed) := by
  have hne := make_response_code_ne_empty secret st.nonce
  have hnot : ¬ (st.attempts ≥ cfg.MAX_ATTEMPTS) := by omega
  simp [handle_evacom_verify, hg, hr, hgr, hlive, hnot, hcode, hne]

set_option maxRecDepth 40000 in
/-- Witness for C5 at secret "k", nonce "000123". -/
theorem C5_grant_failure_preserves_session_witness :
    extract_6digits "B-310909" = make_response_code "k" "000123"
    ∧ handle_evacom_verify ⟨300, 30, 3⟩ "k" ⟨true, true, false⟩ 10
        (some ⟨"000123", 0, 1, 30⟩) "B-310909"
      = (some ⟨"000123", 0, 1, 30⟩, .grantFailed) :=
  ⟨by with_unfolding_all decide,
   C5_grant_failure_preserves_session ⟨300, 30, 3⟩ "k" ⟨true, true, false⟩ 10
     ⟨"000123", 0, 1, 30⟩ "B-310909" rfl rfl rfl
     (by with_unfolding_all decide) (by decide) (by with_unfolding_all decide)⟩

end Evacom

namespace Evacom

set_option maxRecDepth 40000 in
/-- C6 counterexample: a session created at 0 with TTL 300 is expired at
now = 310, yet because its `cooldown` (320) has not elapsed, LINK replies
with the throttle message and keeps the dead session unchanged — no fresh
session with a new nonce is created, refuting the claim's LINK half. -/
theorem C6_counterexample :
    ((310 : Rat) - (0 : Rat) > ((⟨300, 30, 3⟩ : Config).TTL_SECONDS : Rat))
    ∧ handle_evacom_link ⟨300, 30, 3⟩ "k" ⟨true, true, false, "999999"⟩ 310
        (some ⟨"000123", 0, 0, 320⟩)
      = (some ⟨"000123", 0, 0, 320⟩, .throttled 10)
    ∧ (∀ a : String, (LinkReply.throttled 10) ≠ LinkReply.accessNew a) := by
  refine ⟨by with_unfolding_all decide, by with_unfolding_all decide, ?_⟩
  intro a h
  exact LinkReply.noConfusion h

/-- C6 amended: for a session created at T and any handler call at
now > T + TTL_SECONDS, VERIFY removes the session and responds "session
expired"; LINK — provided the cooldown has elapsed (`cooldown_until ≤ now`;
otherwise the throttle branch fires first and the dead session is kept) —
does not resume it but installs a fresh session (newly drawn nonce,
created_at = now, attempts = 0). -/
theorem C6_expiry_behavior (cfg : Config) (secret : String) (envL : LinkEnv) (envV : VerifyEnv)
    (now : Rat) (st : Session) (code : String)
    (hTTL : now - st.created > (cfg.TTL_SECONDS : Rat)) :
    (envV.guardOk = true →
      handle_evacom_verify cfg secret envV now (some st) code = (none, .sessionExpired))
    ∧ (envL.guardOk = true → envL.roleFound = true → envL.alreadyAuthorized = false →
        st.cooldown ≤ now →
        handle_evacom_link cfg secret envL now (some st)
          = (some ⟨envL.freshNonce, now, 0, now + (cfg.COOLDOWN_SECONDS : Rat)⟩,
             .accessNew (make_access_key secret envL.freshNonce))) := by
  have hexp : is_expired cfg now st.created = true := by
    simp only [is_expired, decide_eq_true_eq]
    exact hTTL
  constructor
  · intro hg
    simp [handle_evacom_verify, hg, hexp]
  · intro hg hr hauth hcool
    have hc : ¬ (st.cooldown > now) := not_lt.mpr hcool
    simp [handle_evacom_link, hg, hr, hauth, hc, hexp]

set_option maxRecDepth 40000 in
/-- Witness for C6's amended statement. -/
theorem C6_expiry_behavior_witness :
    ((310 : Rat) - (⟨"000123", 0, 0, 305⟩ : Session).created
        > (((⟨300, 30, 3⟩ : Config).TTL_SECONDS : Int) : Rat))
    ∧ (handle_evacom_verify ⟨300, 30, 3⟩ "k" ⟨true, true, true⟩ 310
          (some ⟨"000123", 0, 0, 305⟩) "B-310909" = (none, .sessionExpired)
      ∧ handle_evacom_link ⟨300, 30, 3⟩ "k" ⟨true, true, false, "999999"⟩ 310
          (some ⟨"000123", 0, 0, 305⟩)
        = (some ⟨"999999", 310, 0, 310 + ((30 : Int) : Rat)⟩,
           .accessNew (make_access_key "k" "999999"))) := by
  have h := C6_expiry_behavior ⟨300, 30, 3⟩ "k" ⟨true, true, false, "999999"⟩
    ⟨true, true, true⟩ 310 ⟨"000123", 0, 0, 305⟩ "B-310909" (by with_unfolding_all decide)
  exact ⟨by with_unfolding_all decide,
    h.1 rfl, h.2 rfl rfl rfl (by with_unfolding_all decide)⟩

/-- C7: a first LINK (no session) at t0 creates a session; a second LINK at
t1 within TTL and after the cooldown returns the SAME access key (the nonce
is reused) and refreshes only `cooldown_until`: `created_at` stays t0, so
the TTL countdown continues from the original creation time. -/
theorem C7_link_resume_same_key (cfg : Config) (secret : String) (env1 env2 : LinkEnv)
    (t0 t1 : Rat)
    (hg1 : env1.guardOk = true) (hr1 : env1.roleFound = true)
    (ha1 : env1.alreadyAuthorized = false)
    (hg2 : env2.guardOk = true) (hr2 : env2.roleFound = true)
    (ha2 : env2.alreadyAuthorized = false)
    (hcool : t0 + (cfg.COOLDOWN_SECONDS : Rat) ≤ t1)
    (hlive : t1 - t0 ≤ (cfg.TTL_SECONDS : Rat)) :
    handle_evacom_link cfg secret env1 t0 none
      = (some ⟨env1.freshNonce, t0, 0, t0 + (cfg.COOLDOWN_SECONDS : Rat)⟩,
         .accessNew (make_access_key secret env1.freshNonce))
    ∧ handle_evacom_link cfg secret env2 t1
        (some ⟨env1.freshNonce, t0, 0, t0 + (cfg.COOLDOWN_SECONDS : Rat)⟩)
      = (some ⟨env1.freshNonce, t0, 0, t1 + (cfg.COOLDOWN_SECONDS : Rat)⟩,
         .accessResumed (make_access_key secret env1.freshNonce) (time_left cfg t1 t0)) := by
  constructor
  · simp [handle_evacom_link, hg1, hr1, ha1]
  · have hc : ¬ ((⟨env1.freshNonce, t0, 0, t0 + (cfg.COOLDOWN_SECONDS : Rat)⟩ : Session).cooldown > t1) :=
      not_lt.mpr hcool
    have hexp : is_expired cfg t1 t0 = false := by
      simp only [is_expired, decide_eq_false_iff_not, not_lt]
      exact hlive
    simp [handle_evacom_link, hg2, hr2, ha2, hc, hexp]

set_option maxRecDepth 40000 in
/-- Witness for C7 at t0 = 0, t1 = 30, cooldown 30, TTL 300. -/
theorem C7_link_resume_same_key_witness :
    ((0 : Rat) + ((30 : Int) : Rat) ≤ 30)
    ∧ (handle_evacom_link ⟨300, 30, 3⟩ "k" ⟨true, true, false, "000123"⟩ 0 none
        = (some ⟨"000123", 0, 0, 0 + ((30 : Int) : Rat)⟩,
           .accessNew (make_access_key "k" "000123"))
      ∧ handle_evacom_link ⟨300, 30, 3⟩ "k" ⟨true, true, false, "555555"⟩ 30
          (some ⟨"000123", 0, 0, 0 + ((30 : Int) : Rat)⟩)
        = (some ⟨"000123", 0, 0, 30 + ((30 : Int) : Rat)⟩,
           .accessResumed (make_access_key "k" "000123") (time_left ⟨300, 30, 3⟩ 30 0))) :=
  ⟨by with_unfolding_all decide,
   C7_link_resume_same_key ⟨300, 30, 3⟩ "k" ⟨true, true, false, "000123"⟩
     ⟨true, true, false, "555555"⟩ 0 30 rfl rfl rfl rfl rfl rfl
     (by with_unfolding_all decide) (by with_unfolding_all decide)⟩

/-- C8: a LINK that arrives while `cooldown_until > now` returns the throttle
reply and leaves the session entry completely unchanged — the same `Session`
value (same nonce, created_at, attempts, cooldown_until) is kept, because the
throttle check precedes the cooldown refresh. -/
theorem C8_throttled_link_frame (cfg : Config) (secret : String) (env : LinkEnv)
    (now : Rat) (st : Session)
    (hg : env.guardOk = true) (hr : env.roleFound = true)
    (ha : env.alreadyAuthorized = false)
    (hcool : st.cooldown > now) :
    handle_evacom_link cfg secret env now (some st)
      = (some st, .throttled (int_trunc (st.cooldown - now))) := by
  simp [handle_evacom_link, hg, hr, ha, hcool]

set_option maxRecDepth 40000 in
/-- Witness for C8: session with cooldown 20 probed at now = 10. -/
theorem C8_throttled_link_frame_witness :
    ((⟨"000123", 0, 1, 20⟩ : Session).cooldown > (10 : Rat))
    ∧ handle_evacom_link ⟨300, 30, 3⟩ "k" ⟨true, true, false, "999999"⟩ 10
        (some ⟨"000123", 0, 1, 20⟩)
      = (some ⟨"000123", 0, 1, 20⟩, .throttled (int_trunc ((20 : Rat) - 10))) :=
  ⟨by with_unfolding_all decide,
   C8_throttled_link_frame ⟨300, 30, 3⟩ "k" ⟨true, true, false, "999999"⟩ 10
     ⟨"000123", 0, 1, 20⟩ rfl rfl rfl (by with_unfolding_all decide)⟩

set_option maxRecDepth 40000 in
/-- C9 counterexample: with `cooldown_until - now = 1/2`, the throttle reply
reports 0 seconds (Python `int()` truncation) whereas
ceil(cooldown_until - now) = 1, refuting N = ceil(cooldown_until - now). -/
theorem C9_counterexample :
    handle_evacom_link ⟨300, 30, 3⟩ "k" ⟨true, true, false, "999999"⟩ 10
        (some ⟨"000123", 0, 0, 21/2⟩)
      = (some ⟨"000123", 0, 0, 21/2⟩, .throttled 0)
    ∧ ⌈(21/2 : Rat) - 10⌉ = 1
    ∧ (0 : Int) ≠ 1 := by
  refine ⟨by with_unfolding_all decide, ?_, by decide⟩
  rw [show ((21/2 : Rat) - 10) = 1/2 by norm_num]
  rw [Int.ceil_eq_iff]
  norm_num

/-- C9 amended: the wait N in the throttle message is
`int(cooldown_until - now)` — truncation toward zero, which on this positive
quantity equals floor(cooldown_until - now), not ceil. -/
theorem C9_throttle_wait_floor (cfg : Config) (secret : String) (env : LinkEnv)
    (now : Rat) (st : Session)
    (hg : env.guardOk = true) (hr : env.roleFound = true)
    (ha : env.alreadyAuthorized = false)
    (hcool : st.cooldown > now) :
    (handle_evacom_link cfg secret env now (some st)).2
      = .throttled ⌊st.cooldown - now⌋ := by
  have h0 : (0 : Rat) ≤ st.cooldown - now := le_of_lt (by linarith)
  simp [handle_evacom_link, hg, hr, ha, hcool, int_trunc_eq_floor h0]

set_option maxRecDepth 40000 in
/-- Witness for C9's amended statement. -/
theorem C9_throttle_wait_floor_witness :
    ((⟨"000123", 0, 0, 21/2⟩ : Session).cooldown > (10 : Rat))
    ∧ (handle_evacom_link ⟨300, 30, 3⟩ "k" ⟨true, true, false, "999999"⟩ 10
        (some ⟨"000123", 0, 0, 21/2⟩)).2
      = .throttled ⌊(⟨"000123", 0, 0, 21/2⟩ : Session).cooldown - (10 : Rat)⌋ :=
  ⟨by with_unfolding_all decide,
   C9_throttle_wait_floor ⟨300, 30, 3⟩ "k" ⟨true, true, false, "999999"⟩ 10
     ⟨"000123", 0, 0, 21/2⟩ rfl rfl rfl (by with_unfolding_all decide)⟩

/-- C10: a failed VERIFY (invalid format or wrong code) on a live,
non-exhausted session keeps the session present and changes only `attempts`
(incremented by exactly 1); nonce, created_at, and cooldown_until are
untouched, so the expected response code and expiry deadline are identical
for the retry. -/
theorem C10_failed_attempt_frame (cfg : Config) (secret : String) (env : VerifyEnv)
    (now : Rat) (st : Session) (code : String)
    (hg : env.guardOk = true)
    (hlive : is_expired cfg now st.created = false)
    (hatt : st.attempts < cfg.MAX_ATTEMPTS)
    (hfail : extract_6digits code = "" ∨
             (extract_6digits code ≠ "" ∧
              extract_6digits code ≠ make_response_code secret st.nonce)) :
    handle_evacom_verify cfg secret env now (some st) code
      = (some ⟨st.nonce, st.created, st.attempts + 1, st.cooldown⟩,
         if extract_6digits code = "" then .invalidFormat
         else .wrongCode (max (cfg.MAX_ATTEMPTS - (st.attempts + 1)) 0)) := by
  have hnot : ¬ (st.attempts ≥ cfg.MAX_ATTEMPTS) := by omega
  rcases hfail with hd | ⟨hd, hne⟩
  · simp [handle_evacom_verify, hg, hlive, hnot, hd]
  · simp [handle_evacom_verify, hg, hlive, hnot, hd, hne]

set_option maxRecDepth 40000 in
/-- Witness for C10 with an invalid-format input. -/
theorem C10_failed_attempt_frame_witness :
    extract_6digits "12-34" = ""
    ∧ handle_evacom_verify ⟨300, 30, 3⟩ "k" ⟨true, true, true⟩ 10
        (some ⟨"000123", 0, 0, 30⟩) "12-34"
      = (some ⟨"000123", 0, 0 + 1, 30⟩,
         if extract_6digits "12-34" = "" then .invalidFormat
         else .wrongCode (max ((3 : Int) - (0 + 1)) 0)) :=
  ⟨by decide,
   C10_failed_attempt_frame ⟨300, 30, 3⟩ "k" ⟨true, true, true⟩ 10
     ⟨"000123", 0, 0, 30⟩ "12-34" rfl (by with_unfolding_all decide) (by decide)
     (Or.inl (by decide))⟩

end Evacom
